import Mathlib

/-!
Verification development for the Wi-Fi Provisioning & Connection Manager
(`src/wifimanager` of the repository): a shallow embedding of the credential
store (`nvs.rs`), the connection supervisor loop (`mod.rs`) and the captive
portal router (`http.rs`), with theorems checking the specification's claims.

Bytes are modelled as `Nat` (with explicit bounds where they matter); flash
regions and buffers are `List Nat`; fallible operations return `Except`.
The repository's `structs.rs`, `utils.rs` and `ap.rs` are not present in the
source tree: the pieces of them these theorems need (the persisted record
type, its JSON wire format, and the signal primitive) are modelled from the
spec and marked as such.
-/

set_option maxRecDepth 100000

namespace BInTime

/-- Modelled from the spec: the persisted credential record declared in the
missing `structs.rs` — "target SSID, passphrase, and any fields needed to
reconstruct a client radio configuration".  Field values are byte strings. -/
structure AutoSetupSettings where
  ssid : List Nat
  psk : List Nat
deriving DecidableEq, Repr

/-- Modelled from the spec: JSON string escaping as performed by the
`serde_json_core` serializer on the record's string fields — a quote or a
backslash is backslash-escaped, any other (non-control) byte passes through. -/
def escapeByte (c : Nat) : List Nat :=
  if c = 0x22 then [0x5C, 0x22]
  else if c = 0x5C then [0x5C, 0x5C]
  else [c]

/-- Escape a whole field value. -/
def escapeBytes (s : List Nat) : List Nat :=
  s.flatMap escapeByte

/-- The bytes of the opening chunk of the wire record, up to and including
the quote that opens the ssid value. -/
def jsonHeader : List Nat :=
  [0x7B, 0x22, 0x73, 0x73, 0x69, 0x64, 0x22, 0x3A, 0x22]

/-- The bytes between the ssid value's closing quote (excluded) and the psk
value's opening quote (included). -/
def jsonMidRest : List Nat :=
  [0x2C, 0x22, 0x70, 0x73, 0x6B, 0x22, 0x3A, 0x22]

/-- Modelled from the spec: the serialized form of the record produced by
`serde_json_core::to_slice` — a length-implicit JSON object holding the two
string fields. -/
def serialize (s : AutoSetupSettings) : List Nat :=
  jsonHeader ++ escapeBytes s.ssid ++ (0x22 :: jsonMidRest) ++
    escapeBytes s.psk ++ (0x22 :: [0x7D])

/-- Strip an expected literal chunk from the front of the input, returning
the remainder, or `none` when the input does not start with the chunk. -/
def dropStart : List Nat → List Nat → Option (List Nat)
  | [], l => some l
  | _ :: _, [] => none
  | a :: p, b :: l => if a = b then dropStart p l else none

/-- Prepend a decoded byte to the pending parse result. -/
def consFst (c : Nat) : Option (List Nat × List Nat) → Option (List Nat × List Nat)
  | some (s, r) => some (c :: s, r)
  | none => none

/-- Parse a JSON string body up to and including its closing quote, undoing
the escaping; fails on control bytes, a dangling backslash, an unsupported
escape or a missing closing quote. -/
def parseJsonStr : List Nat → Option (List Nat × List Nat)
  | [] => none
  | [c] =>
    if c = 0x22 then some ([], []) else none
  | c :: e :: rest2 =>
    if c = 0x22 then some ([], e :: rest2)
    else if c = 0x5C then
      if e = 0x22 ∨ e = 0x5C then consFst e (parseJsonStr rest2)
      else none
    else if 0x20 ≤ c then consFst c (parseJsonStr (e :: rest2))
    else none

/-- Modelled from the spec: `serde_json_core::from_slice` on the record type —
parses the two-field JSON object back into a record, ignoring trailing bytes
after the closing brace (`from_slice` reports the consumed length), and
failing on any malformed input. -/
def deserialize (bs : List Nat) : Option AutoSetupSettings :=
  match dropStart jsonHeader bs with
  | none => none
  | some r1 =>
    match parseJsonStr r1 with
    | none => none
    | some (ss, r2) =>
      match dropStart jsonMidRest r2 with
      | none => none
      | some r3 =>
        match parseJsonStr r3 with
        | none => none
        | some (pw, r4) =>
          match r4 with
          | 0x7D :: _ => some ⟨ss, pw⟩
          | _ => none

/-- Field values the serializer handles faithfully: no control bytes (JSON
strings may not contain them raw) and genuine bytes. -/
def wfBytes (s : List Nat) : Prop :=
  ∀ c ∈ s, 0x20 ≤ c ∧ c ≤ 0xFF

instance (s : List Nat) : Decidable (wfBytes s) := by
  unfold wfBytes; infer_instance

/-- The fixed size of the `SavedSettings` buffer and of the reserved flash
window (`buf: [u8; 1024]`, `Nvs::new(flash, 1024)` in `nvs.rs`). -/
def BUF_SIZE : Nat := 1024

/-- A well-formed record: clean field bytes, and a serialized form that fits
the fixed-size buffer. -/
def AutoSetupSettings.WellFormed (s : AutoSetupSettings) : Prop :=
  wfBytes s.ssid ∧ wfBytes s.psk ∧ (serialize s).length ≤ BUF_SIZE

instance (s : AutoSetupSettings) : Decidable s.WellFormed := by
  unfold AutoSetupSettings.WellFormed; infer_instance

/-- Error type of the wifimanager (`WmError` lives in the missing
`structs.rs`; only the constructors the embedded code paths need). -/
inductive WmError
  | storeError
  | other
deriving DecidableEq, Repr

/-- The credential store of `nvs.rs`: the reserved flash region's first
`BUF_SIZE` bytes, and the internal scratch buffer. -/
structure SavedSettings where
  region : List Nat
  buf : List Nat
deriving DecidableEq, Repr

/-- The payload window `load` parses: the bytes before the first zero
sentinel, or the whole buffer when no zero occurs
(`position(|&x| x == 0x00).unwrap_or(buf.len())`). -/
def sentinelSlice (buf : List Nat) : List Nat :=
  buf.take (buf.findIdx (fun x => x == 0))

/-- `SavedSettings::load` (`nvs.rs` lines 83–98): read the region into the
buffer (a failed read is discarded with `let _ =`, leaving the buffer as it
was), bound the payload at the first zero sentinel, try to parse, and
collapse any parse failure to `Ok(None)`. -/
def SavedSettings.load (s : SavedSettings) (readOk : Bool) :
    SavedSettings × Except WmError (Option AutoSetupSettings) :=
  (⟨s.region, if readOk then s.region else s.buf⟩,
   Except.ok (deserialize (sentinelSlice (if readOk then s.region else s.buf))))

/-- `SavedSettings::save` (`nvs.rs` lines 100–112): zero-fill the buffer,
serialize into it (`serde_json_core::to_slice` fails when the record does not
fit, and `?` propagates before any flash write), then write the whole buffer
to the region.  Flash I/O itself is modelled as reliable. -/
def SavedSettings.save (s : SavedSettings) (v : AutoSetupSettings) :
    SavedSettings × Except WmError Unit :=
  if (serialize v).length ≤ BUF_SIZE then
    (⟨serialize v ++ List.replicate (BUF_SIZE - (serialize v).length) 0,
      serialize v ++ List.replicate (BUF_SIZE - (serialize v).length) 0⟩,
     Except.ok ())
  else
    (⟨s.region, (serialize v).take BUF_SIZE⟩, Except.error WmError.storeError)

/-- A store as freshly constructed over an erased region
(`SavedSettings::new`: zeroed buffer, blank region). -/
def freshSavedSettings : SavedSettings :=
  ⟨List.replicate BUF_SIZE 0, List.replicate BUF_SIZE 0⟩

/-- Modelled from the spec: the single-slot latest-value signal of the Signal
Bus (`WmInnerSignals.wifi_conn_info_sig` in the missing `structs.rs`, an
embassy-style `Signal`): `signal` overwrites any unread value, `signaled`
peeks, `wait` consumes. -/
structure SigSlot (α : Type) where
  slot : Option α
deriving DecidableEq, Repr

/-- Store a new value, overwriting an unread one. -/
def SigSlot.signal (_ : SigSlot α) (v : α) : SigSlot α := ⟨some v⟩

/-- Non-consuming check used by the supervisor before awaiting. -/
def SigSlot.signaled (s : SigSlot α) : Bool := s.slot.isSome

/-- Consume the stored value, when one is present. -/
def SigSlot.wait (s : SigSlot α) : Option (α × SigSlot α) :=
  match s.slot with
  | some v => some (v, ⟨none⟩)
  | none => none

/-- The caller-supplied run configuration (`WmSettings` in the missing
`structs.rs`; fields as used by `mod.rs` and described by the spec). -/
structure WmSettings where
  ssid : List Nat
  wifi_conn_timeout : Nat
  wifi_scan_interval : Nat
  wifi_reconnect_time : Nat
  esp_reset_timeout : Option Nat
  esp_restart_after_connection : Bool
deriving DecidableEq, Repr

/-- The radio mode configuration as `wifi_connection_worker` distinguishes
it: `ModeConfig::Client(..)` or `ModeConfig::ApSta(client_conf, ap_conf)`,
the client part carrying the credentials once a submission is installed. -/
inductive ModeConfig
  | client
  | apSta (clientConf : Option AutoSetupSettings)
deriving DecidableEq, Repr

/-- One scan result: `(ssid, signal_strength)`. -/
structure ScanAp where
  ssid : List Nat
  signal_strength : Int
deriving DecidableEq, Repr

/-- Decimal digits of a natural number, as bytes. -/
def natDecimal (n : Nat) : List Nat :=
  (Nat.toDigits 10 n).map Char.toNat

/-- Decimal rendering of a signed signal strength, as bytes. -/
def intDecimal (i : Int) : List Nat :=
  if i < 0 then 0x2D :: natDecimal i.natAbs else natDecimal i.natAbs

/-- The scan text the worker renders into the shared buffer: one
`ssid: signal_strength` line per access point (`format_args!` at
`mod.rs:172-175`). -/
def renderScan (aps : List ScanAp) : List Nat :=
  aps.flatMap (fun ap =>
    ap.ssid ++ [0x3A, 0x20] ++ intDecimal ap.signal_strength ++ [0x0A])

/-- The state `wifi_connection_worker` reads and writes across one loop
iteration: the credential store it owns, the Signal Bus pieces, the
access-point DHCP service, the radio configuration, and the clock
(milliseconds; `lastScan = none` models `Instant::MIN`). -/
structure WorkerSt where
  storage : SavedSettings
  sig : SigSlot AutoSetupSettings
  scanBuf : List Nat
  dhcpOpen : Bool
  ended : Bool
  config : ModeConfig
  now : Nat
  lastScan : Option Nat
deriving DecidableEq, Repr

/-- The environment one loop iteration interacts with: a portal submission
arriving just before the iteration (if any), the outcome and duration of a
connect attempt, and the outcome and duration of a scan. -/
structure IterEnv where
  arrival : Option AutoSetupSettings
  connectOk : Bool
  dtConnect : Nat
  scanResult : Option (List ScanAp)
  dtScan : Nat
deriving DecidableEq, Repr

/-- The quiet environment: no submission, failed connect, failed scan,
no extra elapsed time. -/
def quietEnv : IterEnv := ⟨none, false, 0, none, 0⟩

/-- Outcome of the submission branch (`mod.rs` lines 139–164): fall through
to the scan branch, return the fresh credentials, or propagate an error. -/
inductive SubRes
  | fallthrough (st : WorkerSt)
  | finish (st : WorkerSt) (r : AutoSetupSettings)
  | fail (st : WorkerSt) (e : WmError)
deriving DecidableEq, Repr

/-- The submission branch of the worker loop: when the signal holds a value,
consume it, require an `ApSta` configuration (else `Err(WmError::Other)`),
install the submitted client configuration, attempt to connect within the
timeout; on success persist (`save(..)?`), close the DHCP server, wait 1s,
broadcast end-of-provisioning and return the credentials; on a failed
connect, fall through and keep looping. -/
def submissionBranch (env : IterEnv) (st : WorkerSt) : SubRes :=
  match st.sig.slot with
  | none => SubRes.fallthrough st
  | some setup_info =>
    match st.config with
    | ModeConfig.client => SubRes.fail { st with sig := ⟨none⟩ } WmError.other
    | ModeConfig.apSta _ =>
      if env.connectOk then
        match st.storage.save setup_info with
        | (storage2, Except.ok _) =>
          SubRes.finish
            { st with
              sig := ⟨none⟩
              config := ModeConfig.apSta (some setup_info)
              storage := storage2
              dhcpOpen := false
              now := st.now + env.dtConnect + 1000
              ended := true }
            setup_info
        | (storage2, Except.error e) =>
          SubRes.fail
            { st with
              sig := ⟨none⟩
              config := ModeConfig.apSta (some setup_info)
              storage := storage2
              now := st.now + env.dtConnect } e
      else
        SubRes.fallthrough
          { st with
            sig := ⟨none⟩
            config := ModeConfig.apSta (some setup_info)
            now := st.now + env.dtConnect }

/-- The scan branch of the worker loop (`mod.rs` lines 166–180): when the
scan interval has elapsed since `lastScan` (always, on the first iteration),
scan, lock the shared buffer (awaiting; the lock wait is part of `dtScan`),
clear it, render the results into it when the scan succeeded, and stamp
`lastScan`. -/
def scanBranch (settings : WmSettings) (env : IterEnv) (st : WorkerSt) :
    WorkerSt :=
  if (match st.lastScan with
      | none => true
      | some t => decide (settings.wifi_scan_interval ≤ st.now - t)) then
    { st with
      now := st.now + env.dtScan
      scanBuf :=
        match env.scanResult with
        | some aps => renderScan aps
        | none => []
      lastScan := some (st.now + env.dtScan) }
  else st

/-- The hard-reset branch (`mod.rs` lines 182–188): when a reset timeout is
configured and that much time has elapsed since the worker started, wait 1s
and force a software reset; returns the absolute reset time. -/
def resetBranch (settings : WmSettings) (startTime : Nat) (st : WorkerSt) :
    Option Nat :=
  match settings.esp_reset_timeout with
  | some t => if t ≤ st.now - startTime then some (st.now + 1000) else none
  | none => none

/-- Result of one worker-loop iteration. -/
inductive IterOut
  | continued (st : WorkerSt)
  | reset (atTime : Nat)
  | ok (st : WorkerSt) (r : AutoSetupSettings)
  | err (st : WorkerSt) (e : WmError)
deriving DecidableEq, Repr

/-- Whether the iteration fell through to the next loop round. -/
def IterOut.isContinued : IterOut → Bool
  | IterOut.continued _ => true
  | _ => false

/-- Whether the iteration propagated an error out of the worker. -/
def IterOut.isErr : IterOut → Bool
  | IterOut.err _ _ => true
  | _ => false

/-- The error an iteration propagated, when it propagated one. -/
def IterOut.errOf : IterOut → Option WmError
  | IterOut.err _ e => some e
  | _ => none

/-- Deliver a submission arriving from the portal tasks into the signal
slot (overwriting an unread one), before the iteration reads it. -/
def arrivalApply (env : IterEnv) (st : WorkerSt) : WorkerSt :=
  match env.arrival with
  | some v => { st with sig := st.sig.signal v }
  | none => st

/-- One full iteration of the worker loop: deliver any newly arrived
submission into the signal slot, run the submission branch, then the scan
branch, then the reset check, then the 100 ms end-of-loop sleep. -/
def workerIter (settings : WmSettings) (startTime : Nat) (env : IterEnv)
    (st : WorkerSt) : IterOut :=
  match submissionBranch env (arrivalApply env st) with
  | SubRes.finish st' r => IterOut.ok st' r
  | SubRes.fail st' e => IterOut.err st' e
  | SubRes.fallthrough st1 =>
    match resetBranch settings startTime (scanBranch settings env st1) with
    | some t => IterOut.reset t
    | none =>
      IterOut.continued
        { scanBranch settings env st1 with
          now := (scanBranch settings env st1).now + 100 }

/-- Result of running the worker loop for a finite list of iteration
environments. -/
inductive LoopOut
  | running (st : WorkerSt)
  | reset (atTime : Nat)
  | finished (st : WorkerSt) (r : AutoSetupSettings)
  | errored (st : WorkerSt) (e : WmError)
deriving DecidableEq, Repr

/-- The error a loop run propagated, when it propagated one. -/
def LoopOut.errOf : LoopOut → Option WmError
  | LoopOut.errored _ e => some e
  | _ => none

/-- Run the worker loop, one iteration per environment. -/
def workerGo (settings : WmSettings) (startTime : Nat) :
    List IterEnv → WorkerSt → LoopOut
  | [], st => LoopOut.running st
  | env :: envs, st =>
    match workerIter settings startTime env st with
    | IterOut.continued st' => workerGo settings startTime envs st'
    | IterOut.reset t => LoopOut.reset t
    | IterOut.ok st' r => LoopOut.finished st' r
    | IterOut.err st' e => LoopOut.errored st' e

/-- `wifi_connection_worker` (`mod.rs` lines 129–192): the provisioning loop,
with `start_time` taken at entry. -/
def wifi_connection_worker (settings : WmSettings) (envs : List IterEnv)
    (st0 : WorkerSt) : LoopOut :=
  workerGo settings st0.now envs st0

/-- The scan-result write of the worker, `mod.rs:168`
(`wm_signals.wifi_scan_res.lock().await` then clear and render): the lock
acquisition suspends one scheduler step at a time while the portal reader
still holds the mutex, and proceeds once it is free.  Returns the number of
steps waited and the buffer content afterwards. -/
def scanWriteAux : Nat → List Nat → Nat × List Nat
  | 0, newContent => (0, newContent)
  | busy + 1, newContent =>
    let (w, c) := scanWriteAux busy newContent
    (w + 1, c)

/-- The scan write against a buffer a reader holds locked for `busy` steps:
old content, new content, resulting (wait, content). -/
def scanWriteRun (busy : Nat) (_oldContent newContent : List Nat) :
    Nat × List Nat :=
  scanWriteAux busy newContent

/-- HTTP method of a registered route. -/
inductive HttpMethod
  | get
  | post
deriving DecidableEq, Repr

/-- The handlers `http.rs` could attach to routes.  Only the static page is
live; the scan-list and credential-submission handlers exist in the source
only as commented-out code. -/
inductive HttpHandler
  | staticHtml
  | scanList
  | setupSubmit
deriving DecidableEq, Repr

/-- A registered route. -/
structure RouteEntry where
  method : HttpMethod
  path : String
  handler : HttpHandler
deriving DecidableEq, Repr

/-- `AppProps::build_app` (`http.rs` lines 22–49): the router as actually
constructed.  The only `route` call is the static page at the root; the
`list` and `setup` registrations are commented out in the source. -/
def build_app : List RouteEntry :=
  [⟨HttpMethod.get, "/", HttpHandler.staticHtml⟩]

/-- Route lookup: the handler the router serves for a method and path, or
`none` (a 404) when no route matches. -/
def routeLookup (m : HttpMethod) (p : String) : Option HttpHandler :=
  (build_app.find? (fun e => decide (e.method = m) && decide (e.path = p))).map
    RouteEntry.handler

/-- Environment of one `init_wm` run: whether the stored-credential read
succeeds, whether the initial client connection attempt succeeds within
`wifi_conn_timeout`, and the per-iteration environments for the provisioning
loop if it is entered. -/
structure InitEnv where
  readOk : Bool
  firstConnectOk : Bool
  workerEnvs : List IterEnv
deriving DecidableEq, Repr

/-- Outcome of `init_wm`, as far as the provisioning state machine goes. -/
inductive InitOutcome
  | connectedStored (creds : Option AutoSetupSettings) (finalRegion : List Nat)
  | provisioned (creds : AutoSetupSettings) (finalRegion : List Nat)
  | restartRequested (creds : AutoSetupSettings) (finalRegion : List Nat)
  | resetTimeout (atTime : Nat)
  | provisioningPending (st : WorkerSt)
  | failed (e : WmError)
deriving DecidableEq, Repr

/-- `init_wm` (`mod.rs` lines 28–127), down to the end of the provisioning
state machine: construct the store, load stored credentials, attempt a first
client connection; on success exit at once with the loaded credentials and
the untouched region; otherwise enter the provisioning loop with the
`ModeConfig::Client` configuration built at `mod.rs:63`, the DHCP server
running and an empty signal slot, and map the loop's outcome (honouring
`esp_restart_after_connection`). -/
def init_wm (settings : WmSettings) (region0 : List Nat) (env : InitEnv) :
    InitOutcome :=
  let storage0 : SavedSettings := ⟨region0, List.replicate BUF_SIZE 0⟩
  let loaded := storage0.load env.readOk
  match loaded.2 with
  | Except.error e => InitOutcome.failed e
  | Except.ok wifi_setup =>
    if env.firstConnectOk then
      InitOutcome.connectedStored wifi_setup loaded.1.region
    else
      let st0 : WorkerSt :=
        { storage := loaded.1, sig := ⟨none⟩, scanBuf := [], dhcpOpen := true,
          ended := false, config := ModeConfig.client, now := 0,
          lastScan := none }
      match wifi_connection_worker settings env.workerEnvs st0 with
      | LoopOut.running st => InitOutcome.provisioningPending st
      | LoopOut.reset t => InitOutcome.resetTimeout t
      | LoopOut.errored _ e => InitOutcome.failed e
      | LoopOut.finished st r =>
        if settings.esp_restart_after_connection then
          InitOutcome.restartRequested r st.storage.region
        else
          InitOutcome.provisioned r st.storage.region

/-! Concrete inputs used to exercise the definitions. -/

/-- A small concrete record (`ssid = "ab"`, `psk = "cd"`). -/
def smallRecord : AutoSetupSettings := ⟨[0x61, 0x62], [0x63, 0x64]⟩

/-- A record whose serialized form cannot fit the 1024-byte buffer
(an 1100-byte ssid). -/
def bigRecord : AutoSetupSettings := ⟨List.replicate 1100 0x41, []⟩

/-- A concrete run configuration (reset timeout 300 ms, no restart flag). -/
def settingsW : WmSettings := ⟨[0x61], 10000, 5000, 1000, some 300, false⟩

/-- A store whose region is all zeroes (erased flash). -/
def zeroStore : SavedSettings :=
  ⟨List.replicate BUF_SIZE 0, List.replicate BUF_SIZE 0⟩

/-- A store whose region is garbage with no zero sentinel in the window. -/
def garbageStore : SavedSettings :=
  ⟨List.replicate BUF_SIZE 0xFF, List.replicate BUF_SIZE 0⟩

/-- An iteration environment where a connect attempt succeeds at once. -/
def connectEnv : IterEnv := ⟨none, true, 0, none, 0⟩

/-- A worker state in access-point mode with a pending small submission. -/
def stApSub : WorkerSt :=
  { storage := freshSavedSettings, sig := ⟨some smallRecord⟩, scanBuf := [],
    dhcpOpen := true, ended := false, config := ModeConfig.apSta none,
    now := 0, lastScan := none }

/-- A worker state in access-point mode with a pending oversized
submission. -/
def stBigSub : WorkerSt :=
  { storage := freshSavedSettings, sig := ⟨some bigRecord⟩, scanBuf := [],
    dhcpOpen := true, ended := false, config := ModeConfig.apSta none,
    now := 0, lastScan := none }

/-- A worker state with an empty signal slot, as at provisioning start. -/
def stQuiet : WorkerSt :=
  { storage := freshSavedSettings, sig := ⟨none⟩, scanBuf := [],
    dhcpOpen := true, ended := false, config := ModeConfig.client,
    now := 0, lastScan := none }

/-- The region left by saving `smallRecord` on a fresh store. -/
def storedRegionW : List Nat := ((freshSavedSettings.save smallRecord).1).region

/-- Project the final state out of a `finished` loop outcome. -/
def finStateOf (o : LoopOut) (dflt : WorkerSt) : WorkerSt :=
  match o with
  | LoopOut.finished s _ => s
  | _ => dflt

/-- The loop outcome of the successful-submission run. -/
def c6RunOut : LoopOut := wifi_connection_worker settingsW [connectEnv] stApSub

/-- Its final worker state. -/
def c6FinalSt : WorkerSt := finStateOf c6RunOut stApSub

/-! Serialization round-trip lemmas. -/

theorem dropStart_append (p r : List Nat) : dropStart p (p ++ r) = some r := by
  induction p with
  | nil => rfl
  | cons a p ih => simp [dropStart, ih]

theorem escapeBytes_nil : escapeBytes [] = [] := rfl

theorem escapeBytes_cons (c : Nat) (s : List Nat) :
    escapeBytes (c :: s) = escapeByte c ++ escapeBytes s := by
  simp [escapeBytes]

theorem parseJsonStr_quote (r : List Nat) :
    parseJsonStr (0x22 :: r) = some ([], r) := by
  cases r with
  | nil => rfl
  | cons e rest => rfl

theorem parseJsonStr_esc (e : Nat) (r : List Nat)
    (he : e = 0x22 ∨ e = 0x5C) :
    parseJsonStr (0x5C :: e :: r) = consFst e (parseJsonStr r) := by
  rcases he with he | he
  · subst he; rfl
  · subst he; rfl

theorem parseJsonStr_plain (c : Nat) (r : List Nat)
    (h22 : ¬c = 0x22) (h5c : ¬c = 0x5C) (hc : 0x20 ≤ c) :
    parseJsonStr (c :: r) = consFst c (parseJsonStr r) := by
  cases r with
  | nil =>
    show (if c = 0x22 then some (([] : List Nat), ([] : List Nat)) else none) =
      consFst c (parseJsonStr [])
    rw [if_neg h22]
    rfl
  | cons e rest =>
    show (if c = 0x22 then some (([] : List Nat), e :: rest)
      else if c = 0x5C then
        if e = 0x22 ∨ e = 0x5C then consFst e (parseJsonStr rest)
        else none
      else if 0x20 ≤ c then consFst c (parseJsonStr (e :: rest))
      else none) = consFst c (parseJsonStr (e :: rest))
    rw [if_neg h22, if_neg h5c, if_pos hc]

theorem parseJsonStr_escape (s : List Nat) (hs : ∀ c ∈ s, 0x20 ≤ c) :
    ∀ r, parseJsonStr (escapeBytes s ++ 0x22 :: r) = some (s, r) := by
  induction s with
  | nil =>
    intro r
    rw [escapeBytes_nil, List.nil_append, parseJsonStr_quote]
  | cons c s ih =>
    intro r
    have hc : 0x20 ≤ c := hs c (by simp)
    have hs' : ∀ x ∈ s, 0x20 ≤ x := fun x hx => hs x (by simp [hx])
    rw [escapeBytes_cons, List.append_assoc]
    by_cases h22 : c = 0x22
    · subst h22
      rw [show escapeByte 0x22 = [0x5C, 0x22] from rfl]
      rw [show ([0x5C, 0x22] : List Nat) ++ (escapeBytes s ++ 0x22 :: r) =
        0x5C :: 0x22 :: (escapeBytes s ++ 0x22 :: r) from rfl]
      rw [parseJsonStr_esc _ _ (Or.inl rfl), ih hs' r]
      rfl
    · by_cases h5c : c = 0x5C
      · subst h5c
        rw [show escapeByte 0x5C = [0x5C, 0x5C] from rfl]
        rw [show ([0x5C, 0x5C] : List Nat) ++ (escapeBytes s ++ 0x22 :: r) =
          0x5C :: 0x5C :: (escapeBytes s ++ 0x22 :: r) from rfl]
        rw [parseJsonStr_esc _ _ (Or.inr rfl), ih hs' r]
        rfl
      · rw [show escapeByte c = [c] by rw [escapeByte, if_neg h22, if_neg h5c]]
        rw [List.singleton_append]
        rw [parseJsonStr_plain c _ h22 h5c hc, ih hs' r]
        rfl

theorem deserialize_serialize (S : AutoSetupSettings)
    (h1 : ∀ c ∈ S.ssid, 0x20 ≤ c) (h2 : ∀ c ∈ S.psk, 0x20 ≤ c) :
    deserialize (serialize S) = some S := by
  simp only [serialize, deserialize, List.append_assoc, List.cons_append,
    dropStart_append, parseJsonStr_escape S.ssid h1,
    parseJsonStr_escape S.psk h2]

theorem escapeByte_ge (c : Nat) (hc : 0x20 ≤ c) :
    ∀ b ∈ escapeByte c, 0x20 ≤ b := by
  unfold escapeByte
  split
  · decide
  · split
    · decide
    · intro b hb
      simp at hb
      omega

theorem escapeBytes_ge (s : List Nat) (hs : ∀ c ∈ s, 0x20 ≤ c) :
    ∀ b ∈ escapeBytes s, 0x20 ≤ b := by
  intro b hb
  rw [escapeBytes, List.mem_flatMap] at hb
  obtain ⟨c, hc, hbc⟩ := hb
  exact escapeByte_ge c (hs c hc) b hbc

theorem serialize_ge (S : AutoSetupSettings)
    (h1 : ∀ c ∈ S.ssid, 0x20 ≤ c) (h2 : ∀ c ∈ S.psk, 0x20 ≤ c) :
    ∀ b ∈ serialize S, 0x20 ≤ b := by
  rw [serialize]
  refine List.forall_mem_append.mpr ⟨?_, by decide⟩
  refine List.forall_mem_append.mpr ⟨?_, escapeBytes_ge _ h2⟩
  refine List.forall_mem_append.mpr ⟨?_, by decide⟩
  exact List.forall_mem_append.mpr ⟨by decide, escapeBytes_ge _ h1⟩

theorem serialize_ne_zero (S : AutoSetupSettings)
    (h1 : ∀ c ∈ S.ssid, 0x20 ≤ c) (h2 : ∀ c ∈ S.psk, 0x20 ≤ c) :
    ∀ b ∈ serialize S, b ≠ 0 := by
  intro b hb
  have := serialize_ge S h1 h2 b hb
  omega

theorem findIdx_append_replicate_zero (l : List Nat) (k : Nat)
    (hl : ∀ b ∈ l, b ≠ 0) :
    (l ++ List.replicate k 0).findIdx (fun x => x == 0) = l.length := by
  induction l with
  | nil =>
    cases k with
    | zero => rfl
    | succ k => simp [List.replicate_succ, List.findIdx_cons]
  | cons a l ih =>
    have ha : (a == 0) = false := by
      have := hl a (by simp)
      simp [this]
    simp [List.findIdx_cons, ha,
      ih (fun b hb => hl b (by simp [hb]))]

/-- C1: for every well-formed `AutoSetupSettings` record, saving it on a
fresh store and loading it back returns `Ok(Some(_))` with a record equal to
the one saved — the record serializes into the zero-filled fixed-size
buffer, the whole buffer is written to the region, and the load bounds the
payload at the first zero sentinel and parses it back. -/
theorem c1_save_load_roundtrip (S : AutoSetupSettings) (h : S.WellFormed) :
    ((freshSavedSettings.save S).1.load true).2 = Except.ok (some S) := by
  obtain ⟨h1, h2, hlen⟩ := h
  have h1' : ∀ c ∈ S.ssid, 0x20 ≤ c := fun c hc => (h1 c hc).1
  have h2' : ∀ c ∈ S.psk, 0x20 ≤ c := fun c hc => (h2 c hc).1
  have hsave : (freshSavedSettings.save S).1 =
      ⟨serialize S ++ List.replicate (BUF_SIZE - (serialize S).length) 0,
       serialize S ++ List.replicate (BUF_SIZE - (serialize S).length) 0⟩ := by
    simp [SavedSettings.save, hlen]
  rw [hsave]
  simp only [SavedSettings.load, if_pos]
  have hidx : sentinelSlice
      (serialize S ++ List.replicate (BUF_SIZE - (serialize S).length) 0) =
      serialize S := by
    rw [sentinelSlice,
      findIdx_append_replicate_zero _ _ (serialize_ne_zero S h1' h2'),
      List.take_left]
  rw [hidx, deserialize_serialize S h1' h2']

/-- C1 witness: the round trip evaluated at a concrete record. -/
theorem c1_roundtrip_witness :
    smallRecord.WellFormed ∧
    ((freshSavedSettings.save smallRecord).1.load true).2 =
      Except.ok (some smallRecord) :=
  ⟨by decide, c1_save_load_roundtrip smallRecord (by decide)⟩

/-- C4: `load` never surfaces an error to its caller — it always returns
`Ok` — and whenever the bytes bounded by the sentinel window fail to parse
(the all-zero region and sentinel-free garbage included), it returns
`Ok(None)`. -/
theorem c4_load_never_fails (s : SavedSettings) (readOk : Bool) :
    (∃ v, (s.load readOk).2 = Except.ok v) ∧
    (deserialize (sentinelSlice (if readOk then s.region else s.buf)) = none →
      (s.load readOk).2 = Except.ok none) := by
  constructor
  · exact ⟨deserialize (sentinelSlice (if readOk then s.region else s.buf)),
      rfl⟩
  · intro h
    simp only [SavedSettings.load]
    rw [h]

/-- C4 witness: the all-zero region and the sentinel-free garbage region
both load as `Ok(None)`. -/
theorem c4_load_witness :
    (zeroStore.load true).2 = Except.ok none ∧
    (garbageStore.load true).2 = Except.ok none :=
  ⟨(c4_load_never_fails zeroStore true).2 (by decide),
   (c4_load_never_fails garbageStore true).2 (by decide)⟩

/-- C10: when the serialized record exceeds the 1024-byte buffer, `save`
returns a `StoreError` and the flash region is untouched — the
`serde_json_core::to_slice` failure propagates before `nvs.write` runs, so
no truncated record is ever written. -/
theorem c10_save_overflow_no_write (s : SavedSettings) (v : AutoSetupSettings)
    (h : BUF_SIZE < (serialize v).length) :
    (s.save v).2 = Except.error WmError.storeError ∧
    (s.save v).1.region = s.region := by
  have hn : ¬(serialize v).length ≤ BUF_SIZE := Nat.not_le.mpr h
  constructor
  · simp [SavedSettings.save, hn]
  · simp [SavedSettings.save, hn]

/-- C10 witness: the oversized record fails to save on a fresh store and
leaves the region blank. -/
theorem c10_overflow_witness :
    BUF_SIZE < (serialize bigRecord).length ∧
    (freshSavedSettings.save bigRecord).2 = Except.error WmError.storeError ∧
    (freshSavedSettings.save bigRecord).1.region = freshSavedSettings.region :=
  ⟨by decide, c10_save_overflow_no_write freshSavedSettings bigRecord (by decide)⟩

/-- C8: the submitted-credentials channel has single-slot last-write-wins
semantics — after two submissions with no consumption in between, waiting
observes only the second, the slot afterwards is empty (nothing is queued or
replayed), and the stored value is the latest one. -/
theorem c8_latest_wins (α : Type) (s : SigSlot α) (a b : α) :
    ((s.signal a).signal b).wait = some (b, ⟨none⟩) ∧
    ((s.signal a).signal b).slot = some b :=
  ⟨rfl, rfl⟩

/-- C3: the captive portal router as built serves only the static page at
the root; a request for the scan list or a credential submission hits no
route at all — the `list` and `setup` registrations are commented out in
`http.rs`, contradicting the three-route contract. -/
theorem c3_portal_routes :
    routeLookup HttpMethod.get "/" = some HttpHandler.staticHtml ∧
    routeLookup HttpMethod.get "/list" = none ∧
    routeLookup HttpMethod.post "/setup" = none ∧
    build_app.length = 1 := by
  refine ⟨rfl, ?_, ?_, rfl⟩
  · decide
  · decide

/-- C5 counterexample: with the shared buffer locked by a reader for three
scheduler steps, the supervisor's scan write is not skipped — the new
content lands anyway — and the supervisor does block, waiting three steps,
contradicting the claimed non-blocking try-acquire-and-skip semantics. -/
theorem c5_scan_write_counterexample :
    scanWriteRun 3 [0x61] [0x62] = (3, [0x62]) ∧
    (scanWriteRun 3 [0x61] [0x62]).2 ≠ [0x61] ∧
    (scanWriteRun 3 [0x61] [0x62]).1 ≠ 0 := by
  refine ⟨rfl, ?_, ?_⟩
  · decide
  · decide

/-- C5 amended: the supervisor's scan write acquires the buffer mutex with a
blocking `lock().await` — it suspends for as long as a reader holds the
lock and then always performs the write; it is never skipped.  (The
non-blocking try-acquire lives on the HTTP reader side, not here.) -/
theorem c5_scan_write_blocks (busy : Nat) (oldC newC : List Nat) :
    scanWriteRun busy oldC newC = (busy, newC) := by
  induction busy with
  | zero => rfl
  | succ k ih =>
    simp only [scanWriteRun, scanWriteAux] at ih ⊢
    rw [ih]

/-! Worker-loop lemmas. -/

theorem submissionBranch_finish (env : IterEnv) (st st' : WorkerSt)
    (r : AutoSetupSettings)
    (h : submissionBranch env st = SubRes.finish st' r) :
    st'.ended = true ∧ st'.dhcpOpen = false ∧
    st'.storage.region =
      serialize r ++ List.replicate (BUF_SIZE - (serialize r).length) 0 := by
  unfold submissionBranch at h
  split at h
  · cases h
  · split at h
    · cases h
    · split at h
      · split at h
        · rename_i heq
          cases h
          unfold SavedSettings.save at heq
          split at heq
          · rw [Prod.mk.injEq] at heq
            obtain ⟨hst, -⟩ := heq
            refine ⟨rfl, rfl, ?_⟩
            rw [← hst]
          · rw [Prod.mk.injEq] at heq
            obtain ⟨-, hbad⟩ := heq
            cases hbad
        · cases h
      · cases h

theorem workerIter_ok (settings : WmSettings) (startTime : Nat)
    (env : IterEnv) (st st' : WorkerSt) (r : AutoSetupSettings)
    (h : workerIter settings startTime env st = IterOut.ok st' r) :
    submissionBranch env (arrivalApply env st) = SubRes.finish st' r := by
  unfold workerIter at h
  split at h
  · rename_i heq
    cases h
    exact heq
  · cases h
  · split at h
    · cases h
    · cases h

theorem workerGo_finished (settings : WmSettings) (startTime : Nat) :
    ∀ (envs : List IterEnv) (st0 st' : WorkerSt) (r : AutoSetupSettings),
    workerGo settings startTime envs st0 = LoopOut.finished st' r →
    st'.ended = true ∧ st'.dhcpOpen = false ∧
    st'.storage.region =
      serialize r ++ List.replicate (BUF_SIZE - (serialize r).length) 0 := by
  intro envs
  induction envs with
  | nil =>
    intro st0 st' r h
    cases h
  | cons env envs ih =>
    intro st0 st' r h
    rw [workerGo] at h
    split at h
    · exact ih _ st' r h
    · cases h
    · rename_i st1 r1 heq
      cases h
      exact submissionBranch_finish env (arrivalApply env st0) st' r
        (workerIter_ok settings startTime env st0 st' r heq)
    · cases h

/-- C6: whenever `wifi_connection_worker` returns successfully with
credentials, the final state shows all three effects of the success path:
the new record was persisted through the credential store (the region holds
its zero-padded serialization, so the save succeeded), the access point's
DHCP service was closed, and the end-of-provisioning broadcast was
signalled — all before the return. -/
theorem c6_success_effects (settings : WmSettings) (envs : List IterEnv)
    (st0 st' : WorkerSt) (r : AutoSetupSettings)
    (h : wifi_connection_worker settings envs st0 = LoopOut.finished st' r) :
    st'.ended = true ∧ st'.dhcpOpen = false ∧
    st'.storage.region =
      serialize r ++ List.replicate (BUF_SIZE - (serialize r).length) 0 :=
  workerGo_finished settings st0.now envs st0 st' r h

/-- C6 witness: a concrete successful run — submission pending, `ApSta`
configuration, connect succeeds — ends provisioned, with DHCP closed and
the record persisted. -/
theorem c6_success_witness :
    c6FinalSt.ended = true ∧ c6FinalSt.dhcpOpen = false ∧
    c6FinalSt.storage.region =
      serialize smallRecord ++
        List.replicate (BUF_SIZE - (serialize smallRecord).length) 0 :=
  c6_success_effects settingsW [connectEnv] stApSub c6FinalSt smallRecord
    (by decide)

/-- C2 counterexample: a StoreError during `save` after a successful
connect does not leave the worker looping in provisioning mode — the
concrete iteration does not continue; it propagates the StoreError out of
the worker, falsifying "the supervisor behaves as if the save did not
happen and remains in access-point mode". -/
theorem c2_store_error_counterexample :
    (workerIter settingsW 0 connectEnv stBigSub).isContinued = false ∧
    (workerIter settingsW 0 connectEnv stBigSub).errOf =
      some WmError.storeError := by
  refine ⟨?_, ?_⟩
  · decide
  · decide

/-- C2 amended: when a submitted credential connects successfully and the
subsequent `save` fails with a StoreError, the `?` operator propagates the
error out of `wifi_connection_worker` — the provisioning loop is aborted
with the error (which `init_wm` then propagates to its caller) instead of
remaining in access-point mode awaiting a retry. -/
theorem c2_store_error_aborts (settings : WmSettings) (startTime : Nat)
    (env : IterEnv) (envs : List IterEnv) (st : WorkerSt)
    (v : AutoSetupSettings) (c : Option AutoSetupSettings)
    (harr : env.arrival = none) (hsig : st.sig.slot = some v)
    (hconf : st.config = ModeConfig.apSta c) (hconn : env.connectOk = true)
    (hbig : BUF_SIZE < (serialize v).length) :
    (workerIter settings startTime env st).errOf = some WmError.storeError ∧
    (workerGo settings startTime (env :: envs) st).errOf =
      some WmError.storeError := by
  have hnle : ¬(serialize v).length ≤ BUF_SIZE := Nat.not_le.mpr hbig
  have harr2 : arrivalApply env st = st := by
    unfold arrivalApply
    rw [harr]
  have hb : ∃ st', submissionBranch env st = SubRes.fail st' WmError.storeError := by
    unfold submissionBranch
    rw [hsig]
    simp only [hconf, hconn, SavedSettings.save, hnle, if_true, if_false,
      ite_true, ite_false]
    exact ⟨_, rfl⟩
  obtain ⟨st', hb⟩ := hb
  have hiter : workerIter settings startTime env st =
      IterOut.err st' WmError.storeError := by
    unfold workerIter
    rw [harr2, hb]
  constructor
  · rw [hiter]
    rfl
  · rw [workerGo, hiter]
    rfl

/-- C2 witness: the amended behaviour at the concrete failing save. -/
theorem c2_store_error_witness :
    (workerIter settingsW 0 connectEnv stBigSub).errOf =
      some WmError.storeError ∧
    (workerGo settingsW 0 (connectEnv :: []) stBigSub).errOf =
      some WmError.storeError :=
  c2_store_error_aborts settingsW 0 connectEnv [] stBigSub bigRecord none
    rfl rfl rfl rfl (by decide)

/-! Timing lemmas for the hard-reset deadline. -/

theorem arrivalApply_now (env : IterEnv) (st : WorkerSt) :
    (arrivalApply env st).now = st.now := by
  unfold arrivalApply
  split
  · rfl
  · rfl

theorem submissionBranch_fallthrough_now (env : IterEnv) (st st1 : WorkerSt)
    (h : submissionBranch env st = SubRes.fallthrough st1) :
    st.now ≤ st1.now := by
  unfold submissionBranch at h
  split at h
  · cases h
    exact Nat.le_refl _
  · split at h
    · cases h
    · split at h
      · split at h
        · cases h
        · cases h
      · cases h
        exact Nat.le_add_right _ _

theorem scanBranch_now (settings : WmSettings) (env : IterEnv)
    (st : WorkerSt) : st.now ≤ (scanBranch settings env st).now := by
  unfold scanBranch
  split
  · exact Nat.le_add_right _ _
  · exact Nat.le_refl _

theorem workerIter_continued_now (settings : WmSettings) (startTime : Nat)
    (env : IterEnv) (st st' : WorkerSt)
    (h : workerIter settings startTime env st = IterOut.continued st') :
    st.now ≤ st'.now := by
  unfold workerIter at h
  split at h
  · cases h
  · cases h
  · rename_i st1 heq
    split at h
    · cases h
    · cases h
      show st.now ≤ (scanBranch settings env st1).now + 100
      have h1 := arrivalApply_now env st
      have h2 := submissionBranch_fallthrough_now env (arrivalApply env st)
        st1 heq
      have h3 := scanBranch_now settings env st1
      omega

theorem workerIter_reset_bound (settings : WmSettings) (T startTime : Nat)
    (env : IterEnv) (st : WorkerSt) (t : Nat)
    (hT : settings.esp_reset_timeout = some T) (hstart : startTime ≤ st.now)
    (h : workerIter settings startTime env st = IterOut.reset t) :
    startTime + T ≤ t := by
  unfold workerIter at h
  split at h
  · cases h
  · cases h
  · rename_i st1 heq
    split at h
    · rename_i t' hr
      cases h
      simp only [resetBranch, hT] at hr
      split at hr
      · rename_i hguard
        cases hr
        have h1 := arrivalApply_now env st
        have h2 := submissionBranch_fallthrough_now env (arrivalApply env st)
          st1 heq
        have h3 := scanBranch_now settings env st1
        omega
      · cases hr
    · cases h

theorem workerGo_reset_bound (settings : WmSettings) (T startTime : Nat)
    (hT : settings.esp_reset_timeout = some T) :
    ∀ (envs : List IterEnv) (st : WorkerSt) (t : Nat), startTime ≤ st.now →
    workerGo settings startTime envs st = LoopOut.reset t →
    startTime + T ≤ t := by
  intro envs
  induction envs with
  | nil =>
    intro st t _ h
    cases h
  | cons env envs ih =>
    intro st t hstart h
    rw [workerGo] at h
    split at h
    · rename_i st1 heq
      exact ih st1 t
        (Nat.le_trans hstart
          (workerIter_continued_now settings startTime env st st1 heq)) h
    · rename_i t' heq
      cases h
      exact workerIter_reset_bound settings T startTime env st _ hT hstart heq
    · cases h
    · cases h

theorem arrivalApply_quiet (st : WorkerSt) : arrivalApply quietEnv st = st :=
  rfl

theorem submissionBranch_quiet (st : WorkerSt) (hsig : st.sig.slot = none) :
    submissionBranch quietEnv st = SubRes.fallthrough st := by
  unfold submissionBranch
  rw [hsig]

theorem scanBranch_quiet_now (settings : WmSettings) (st : WorkerSt) :
    (scanBranch settings quietEnv st).now = st.now := by
  unfold scanBranch
  split
  · rfl
  · rfl

theorem scanBranch_quiet_sig (settings : WmSettings) (st : WorkerSt) :
    (scanBranch settings quietEnv st).sig = st.sig := by
  unfold scanBranch
  split
  · rfl
  · rfl

theorem workerGo_cons_reset (settings : WmSettings) (startTime : Nat)
    (env : IterEnv) (envs : List IterEnv) (st : WorkerSt) (t : Nat)
    (h : workerIter settings startTime env st = IterOut.reset t) :
    workerGo settings startTime (env :: envs) st = LoopOut.reset t := by
  rw [workerGo, h]

theorem workerGo_cons_continued (settings : WmSettings) (startTime : Nat)
    (env : IterEnv) (envs : List IterEnv) (st st' : WorkerSt)
    (h : workerIter settings startTime env st = IterOut.continued st') :
    workerGo settings startTime (env :: envs) st =
      workerGo settings startTime envs st' := by
  rw [workerGo, h]

theorem quiet_iter_reset (settings : WmSettings) (T startTime : Nat)
    (st : WorkerSt) (hT : settings.esp_reset_timeout = some T)
    (hsig : st.sig.slot = none) (hge : startTime + T ≤ st.now) :
    workerIter settings startTime quietEnv st =
      IterOut.reset ((scanBranch settings quietEnv st).now + 1000) ∧
    startTime + T ≤ (scanBranch settings quietEnv st).now + 1000 := by
  have hnow := scanBranch_quiet_now settings st
  have hguard : T ≤ (scanBranch settings quietEnv st).now - startTime := by
    omega
  constructor
  · unfold workerIter
    rw [arrivalApply_quiet, submissionBranch_quiet st hsig]
    simp only [resetBranch, hT, if_pos hguard]
  · omega

theorem quiet_iter_continued (settings : WmSettings) (T startTime : Nat)
    (st : WorkerSt) (hT : settings.esp_reset_timeout = some T)
    (hsig : st.sig.slot = none) (hlt : st.now < startTime + T)
    (hstart : startTime ≤ st.now) :
    ∃ st', workerIter settings startTime quietEnv st = IterOut.continued st' ∧
      st'.now = st.now + 100 ∧ st'.sig.slot = none := by
  have hnow := scanBranch_quiet_now settings st
  have hsig2 := scanBranch_quiet_sig settings st
  have hguard : ¬T ≤ (scanBranch settings quietEnv st).now - startTime := by
    omega
  refine ⟨{ scanBranch settings quietEnv st with
            now := (scanBranch settings quietEnv st).now + 100 }, ?_, ?_, ?_⟩
  · unfold workerIter
    rw [arrivalApply_quiet, submissionBranch_quiet st hsig]
    simp only [resetBranch, hT, if_neg hguard]
  · show (scanBranch settings quietEnv st).now + 100 = st.now + 100
    omega
  · show (scanBranch settings quietEnv st).sig.slot = none
    rw [hsig2, hsig]

theorem workerGo_quiet_reset (settings : WmSettings) (T startTime : Nat)
    (hT : settings.esp_reset_timeout = some T) :
    ∀ (m : Nat) (st : WorkerSt), st.sig.slot = none → startTime ≤ st.now →
      startTime + T ≤ st.now + 100 * m →
      ∃ n t, workerGo settings startTime (List.replicate n quietEnv) st =
        LoopOut.reset t ∧ startTime + T ≤ t := by
  intro m
  induction m with
  | zero =>
    intro st hsig hstart hle
    obtain ⟨h1, h2⟩ :=
      quiet_iter_reset settings T startTime st hT hsig (by omega)
    refine ⟨1, (scanBranch settings quietEnv st).now + 1000, ?_, h2⟩
    rw [show List.replicate 1 quietEnv = [quietEnv] from rfl]
    exact workerGo_cons_reset settings startTime quietEnv [] st _ h1
  | succ k ih =>
    intro st hsig hstart hle
    by_cases hge : startTime + T ≤ st.now
    · obtain ⟨h1, h2⟩ :=
        quiet_iter_reset settings T startTime st hT hsig hge
      refine ⟨1, (scanBranch settings quietEnv st).now + 1000, ?_, h2⟩
      rw [show List.replicate 1 quietEnv = [quietEnv] from rfl]
      exact workerGo_cons_reset settings startTime quietEnv [] st _ h1
    · have hlt : st.now < startTime + T := Nat.lt_of_not_le hge
      obtain ⟨st', h1, h2, h3⟩ :=
        quiet_iter_continued settings T startTime st hT hsig hlt hstart
      obtain ⟨n, t, h4, h5⟩ := ih st' h3 (by omega) (by omega)
      refine ⟨n + 1, t, ?_, h5⟩
      rw [List.replicate_succ]
      rw [workerGo_cons_continued settings startTime quietEnv _ st st' h1]
      exact h4

/-- C7: with a configured hard-reset timeout and no submission ever
arriving, the worker issues the forced restart at or after the deadline
measured from the start of provisioning and never before it — every run
that resets does so no earlier than start + timeout (the 1 s shutdown delay
only pushes it later), and a run left alone does reach the reset. -/
theorem c7_reset_deadline (settings : WmSettings) (T : Nat) (st0 : WorkerSt)
    (hT : settings.esp_reset_timeout = some T) (hsig : st0.sig.slot = none) :
    (∀ (envs : List IterEnv) (t : Nat),
        wifi_connection_worker settings envs st0 = LoopOut.reset t →
        st0.now + T ≤ t) ∧
    (∃ n t, wifi_connection_worker settings (List.replicate n quietEnv) st0 =
        LoopOut.reset t ∧ st0.now + T ≤ t) := by
  constructor
  · intro envs t h
    exact workerGo_reset_bound settings T st0.now hT envs st0 t
      (Nat.le_refl _) h
  · exact workerGo_quiet_reset settings T st0.now hT T st0 hsig
      (Nat.le_refl _) (by omega)

/-- C7 witness: the deadline property at a concrete 300 ms timeout. -/
theorem c7_reset_witness :
    (∀ (envs : List IterEnv) (t : Nat),
        wifi_connection_worker settingsW envs stQuiet = LoopOut.reset t →
        stQuiet.now + 300 ≤ t) ∧
    (∃ n t, wifi_connection_worker settingsW (List.replicate n quietEnv)
        stQuiet = LoopOut.reset t ∧ stQuiet.now + 300 ≤ t) :=
  c7_reset_deadline settingsW 300 stQuiet rfl rfl

/-- C9: when stored credentials parse from the region and the initial
client connection succeeds, `init_wm` exits the provisioning state machine
at once with exactly those credentials, never enters the worker loop, and
the credential-store region is untouched (no save is performed). -/
theorem c9_stored_success_no_write (settings : WmSettings)
    (region0 : List Nat) (env : InitEnv) (S : AutoSetupSettings)
    (hr : env.readOk = true) (hc : env.firstConnectOk = true)
    (hS : deserialize (sentinelSlice region0) = some S) :
    init_wm settings region0 env =
      InitOutcome.connectedStored (some S) region0 := by
  unfold init_wm
  simp only [SavedSettings.load, hr, if_true, ite_true, hS, hc]

/-- C9 witness: a region holding a saved record, a successful first
connect — the outcome carries the stored record and the untouched
region. -/
theorem c9_stored_witness :
    init_wm settingsW storedRegionW ⟨true, true, []⟩ =
      InitOutcome.connectedStored (some smallRecord) storedRegionW :=
  c9_stored_success_no_write settingsW storedRegionW ⟨true, true, []⟩
    smallRecord rfl rfl (by decide)

end BInTime
